import Mathlib

/-!
Shallow embedding of the memory-device configuration and registry layer
found in src/src/vmm/src/vmm_config/memory.rs: the error taxonomy
MemoryConfigError, the configuration DTOs, and the MemoryBuilder registry
with its build, insert, add_device and iter operations.

Machine integers (u64, u16) are embedded as Nat: the operations here only
compare and take remainders, which agree with the machine semantics on the
in-range values involved. Arc<Mutex<Memory>> is embedded as a handle that
records whether its lock is poisoned; acquiring a poisoned lock aborts the
process in the code (expect), which the embedding renders as the value
none of an Option-typed outcome, distinct from every normal error return.
-/

/-- Decidable equality on Except values, used to evaluate the operations on
concrete inputs. -/
instance exceptDecidableEq {ε α : Type} [DecidableEq ε] [DecidableEq α] :
    DecidableEq (Except ε α) := fun x y =>
  match x, y with
  | Except.ok a, Except.ok b =>
    if h : a = b then isTrue (by rw [h])
    else isFalse (by intro hc; cases hc; exact h rfl)
  | Except.error a, Except.error b =>
    if h : a = b then isTrue (by rw [h])
    else isFalse (by intro hc; cases hc; exact h rfl)
  | Except.ok _, Except.error _ => isFalse (by intro hc; cases hc)
  | Except.error _, Except.ok _ => isFalse (by intro hc; cases hc)

/-- Modelled from the spec: the inner error type of the external device
constructor, crate::devices::virtio::memory::Error, whose source is not part
of this repository slice. The spec only requires that construction failures
carry a wrapped inner validation error, such as a block size incompatible
with the region size. -/
inductive MemoryError where
  | incompatibleBlockSize
deriving DecidableEq, Repr

/-- Errors associated with the operations allowed on the memory
(enum MemoryConfigError in memory.rs). -/
inductive MemoryConfigError where
  | DeviceNotFound
  | DeviceNotActive
  | DeviceWithThisIdExists
  | CreateFailure (inner : MemoryError)
deriving DecidableEq, Repr

/-- The strongly typed equivalent of the json body from memory related
requests (struct MemoryDeviceConfig in memory.rs). -/
structure MemoryDeviceConfig where
  id : String
  block_size : Nat
  node_id : Nat
  region_size : Nat
  requested_size : Nat
deriving DecidableEq, Repr

/-- The data fed into a memory update request
(struct MemoryUpdateConfig in memory.rs). -/
structure MemoryUpdateConfig where
  requested_size : Nat
deriving DecidableEq, Repr

/-- The constructed memory device, an external collaborator
(crate::devices::virtio::memory::device::Memory). Only the fields the
constructor receives and the id accessor are relevant here. -/
structure Memory where
  block_size : Nat
  node_id : Option Nat
  region_size : Nat
  id : String
deriving DecidableEq, Repr

/-- Modelled from the spec: Memory::new, the fallible external device
constructor, whose source is not part of this repository slice. Per the
spec it deterministically produces a device or rejects the configuration,
the exemplified rejection being a block size incompatible with the region
size (block_size = PAGE+1 with region_size = PAGE+2 fails, while
block_size = PAGE with region_size = 8*PAGE succeeds); the device is
identified by the id it was constructed with. The embedding rejects a
block size that is zero or does not divide the region size. -/
def Memory.new (block_size : Nat) (node_id : Option Nat) (region_size : Nat)
    (id : String) : Except MemoryError Memory :=
  if block_size ≠ 0 ∧ region_size % block_size = 0 then
    Except.ok { block_size := block_size, node_id := node_id,
                region_size := region_size, id := id }
  else
    Except.error MemoryError.incompatibleBlockSize

/-- A shared device handle, Arc<Mutex<Memory>> (type MutexMemory in
memory.rs). The field poisoned records whether a previous holder failed
while holding the lock. -/
structure MutexMemory where
  poisoned : Bool
  dev : Memory
deriving DecidableEq, Repr

/-- Acquiring the lock of a handle: yields the protected device, or none
when the lock is poisoned (in which case the code aborts via expect). -/
def MutexMemory.lock (m : MutexMemory) : Option Memory :=
  if m.poisoned then none else some m.dev

/-- A builder for Memory devices (struct MemoryBuilder in memory.rs):
an ordered sequence of device handles. -/
structure MemoryBuilder where
  memory_devices : List MutexMemory
deriving DecidableEq, Repr

/-- Default::default for MemoryBuilder: an empty device list. -/
def MemoryBuilder.default : MemoryBuilder := ⟨[]⟩

/-- MemoryBuilder::new, creating an empty memory store. -/
def MemoryBuilder.new : MemoryBuilder := MemoryBuilder.default

/-- MemoryBuilder::build: creates a Memory device from the provided
MemoryDeviceConfig, translating node_id zero to an absent affinity,
wrapping a constructor failure in CreateFailure, and wrapping the device
in a fresh (hence unpoisoned) lock. -/
def MemoryBuilder.build (cfg : MemoryDeviceConfig) :
    Except MemoryConfigError MutexMemory :=
  match Memory.new cfg.block_size
      (if cfg.node_id ≠ 0 then some cfg.node_id else none)
      cfg.region_size cfg.id with
  | Except.error e => Except.error (MemoryConfigError.CreateFailure e)
  | Except.ok memory => Except.ok ⟨false, memory⟩

/-- The id-comparison loop of MemoryBuilder::add_device: for each existing
device, acquire that device lock and the new handle lock and compare ids;
the first collision yields DeviceWithThisIdExists. The outcome none models
the fatal path taken when a lock is poisoned (expect aborts the process),
which is not a normal error return. -/
def MemoryBuilder.scanIds (devices : List MutexMemory) (memory : MutexMemory) :
    Option (Except MemoryConfigError Unit) :=
  match devices with
  | [] => some (Except.ok ())
  | device :: rest =>
    match device.lock, memory.lock with
    | some d, some m =>
      if d.id = m.id then some (Except.error MemoryConfigError.DeviceWithThisIdExists)
      else MemoryBuilder.scanIds rest memory
    | _, _ => none

/-- MemoryBuilder::add_device: inserts an existing memory device after
scanning current handles for an id collision. The pair returned on the
normal path carries the operation result and the resulting builder state
(unchanged on error, appended on success); none is the fatal poisoned-lock
path. -/
def MemoryBuilder.add_device (b : MemoryBuilder) (memory : MutexMemory) :
    Option (Except MemoryConfigError Unit × MemoryBuilder) :=
  match MemoryBuilder.scanIds b.memory_devices memory with
  | none => none
  | some (Except.error e) => some (Except.error e, b)
  | some (Except.ok _) => some (Except.ok (), ⟨b.memory_devices ++ [memory]⟩)

/-- MemoryBuilder::insert: builds the device from the config, then
delegates to add_device; a build failure is returned with the builder
unchanged. -/
def MemoryBuilder.insert (b : MemoryBuilder) (cfg : MemoryDeviceConfig) :
    Option (Except MemoryConfigError Unit × MemoryBuilder) :=
  match MemoryBuilder.build cfg with
  | Except.error e => some (Except.error e, b)
  | Except.ok memory => MemoryBuilder.add_device b memory

/-- MemoryBuilder::iter: the traversal over the device handles, in order. -/
def MemoryBuilder.iter (b : MemoryBuilder) : List MutexMemory :=
  b.memory_devices

/-- The ids of the devices contained in the registry, in order. -/
def MemoryBuilder.ids (b : MemoryBuilder) : List String :=
  b.memory_devices.map (fun d => d.dev.id)

/-- An observable call on the registry: insert of a config, or add_device
of a pre-built handle. -/
inductive Op where
  | insert (cfg : MemoryDeviceConfig)
  | add (m : MutexMemory)
deriving Repr

/-- Running one call against a builder; none propagates the fatal
poisoned-lock abort, after which no state is observable. -/
def Op.run (b : MemoryBuilder) : Op → Option MemoryBuilder
  | Op.insert cfg => (MemoryBuilder.insert b cfg).map Prod.snd
  | Op.add m => (MemoryBuilder.add_device b m).map Prod.snd

/-- Running a sequence of calls against a builder. -/
def Op.runAll (b : MemoryBuilder) : List Op → Option MemoryBuilder
  | [] => some b
  | op :: rest =>
    match Op.run b op with
    | none => none
    | some b2 => Op.runAll b2 rest

/-- Acquiring a lock succeeds exactly on an unpoisoned handle, yielding the
protected device. -/
theorem MutexMemory.lock_eq_some {m : MutexMemory} {d : Memory}
    (h : m.lock = some d) : m.poisoned = false ∧ d = m.dev := by
  unfold MutexMemory.lock at h
  by_cases hp : m.poisoned = true
  · simp [hp] at h
  · simp only [Bool.not_eq_true] at hp
    simp [hp] at h
    exact ⟨hp, h.symm⟩

/-- The id scan succeeds exactly when every existing device can be locked and
carries an id distinct from the id of the new handle (the new handle being
locked once per existing device). -/
theorem scanIds_eq_ok_iff (devices : List MutexMemory) (memory : MutexMemory) :
    MemoryBuilder.scanIds devices memory = some (Except.ok ()) ↔
      ∀ d ∈ devices, d.poisoned = false ∧ memory.poisoned = false ∧
        d.dev.id ≠ memory.dev.id := by
  induction devices with
  | nil => simp [MemoryBuilder.scanIds]
  | cons device rest ih =>
    rw [MemoryBuilder.scanIds]
    cases hl : device.lock with
    | none =>
      unfold MutexMemory.lock at hl
      by_cases hp : device.poisoned = true
      · simp [hp]
      · simp [hp] at hl
    | some d =>
      obtain ⟨hp, hd⟩ := MutexMemory.lock_eq_some hl
      cases hm : memory.lock with
      | none =>
        unfold MutexMemory.lock at hm
        by_cases hq : memory.poisoned = true
        · simp only [hq, if_true] at hm
          simp [hq, hp]
          exact ⟨device, fun hcon => absurd rfl hcon⟩
        · simp [hq] at hm
      | some m =>
        obtain ⟨hq, hmdev⟩ := MutexMemory.lock_eq_some hm
        subst hd
        subst hmdev
        by_cases hid : device.dev.id = memory.dev.id
        · simp [hid, hp, hq]
        · simp [hid, ih, hp, hq]

/-- The id scan reports an existing id as DeviceWithThisIdExists when no lock
on the way to the collision is poisoned. -/
theorem scanIds_error_of_mem (devices : List MutexMemory) (memory : MutexMemory)
    (hall : ∀ d ∈ devices, d.poisoned = false) (hmem : memory.poisoned = false)
    (hin : memory.dev.id ∈ devices.map (fun d => d.dev.id)) :
    MemoryBuilder.scanIds devices memory =
      some (Except.error MemoryConfigError.DeviceWithThisIdExists) := by
  induction devices with
  | nil => simp at hin
  | cons device rest ih =>
    have hdp : device.poisoned = false := hall device (by simp)
    rw [MemoryBuilder.scanIds]
    unfold MutexMemory.lock
    simp only [hdp, hmem, Bool.false_eq_true, if_false]
    by_cases hid : device.dev.id = memory.dev.id
    · simp [hid]
    · have hin2 : memory.dev.id ∈ rest.map (fun d => d.dev.id) := by
        simp only [List.map_cons, List.mem_cons] at hin
        rcases hin with h1 | h2
        · exact absurd h1.symm hid
        · exact h2
      have := ih (fun d hd => hall d (by simp [hd])) hin2
      simp [hid, this]

/-- The only error kind the id scan produces is DeviceWithThisIdExists. -/
theorem scanIds_error_kind (devices : List MutexMemory) (memory : MutexMemory)
    (e : MemoryConfigError)
    (h : MemoryBuilder.scanIds devices memory = some (Except.error e)) :
    e = MemoryConfigError.DeviceWithThisIdExists := by
  induction devices with
  | nil => simp [MemoryBuilder.scanIds] at h
  | cons device rest ih =>
    rw [MemoryBuilder.scanIds] at h
    cases hl : device.lock with
    | none => rw [hl] at h; simp at h
    | some d =>
      cases hm : memory.lock with
      | none => rw [hl, hm] at h; simp at h
      | some m =>
        rw [hl, hm] at h
        by_cases hid : d.id = m.id
        · simp [hid] at h
          exact h.symm
        · simp [hid] at h
          exact ih h

/-- The id scan terminates normally (no fatal abort) when no involved lock is
poisoned. -/
theorem scanIds_isSome (devices : List MutexMemory) (memory : MutexMemory)
    (hall : ∀ d ∈ devices, d.poisoned = false) (hmem : memory.poisoned = false) :
    (MemoryBuilder.scanIds devices memory).isSome := by
  induction devices with
  | nil => simp [MemoryBuilder.scanIds]
  | cons device rest ih =>
    have hdp : device.poisoned = false := hall device (by simp)
    rw [MemoryBuilder.scanIds]
    unfold MutexMemory.lock
    simp only [hdp, hmem, Bool.false_eq_true, if_false]
    by_cases hid : device.dev.id = memory.dev.id
    · simp [hid]
    · have := ih (fun d hd => hall d (by simp [hd]))
      simp [hid, this]

/-- Building from a config passes the id of the config through to the device
unchanged and yields a fresh, unpoisoned lock. -/
theorem build_ok_fields {cfg : MemoryDeviceConfig} {m : MutexMemory}
    (h : MemoryBuilder.build cfg = Except.ok m) :
    m.poisoned = false ∧ m.dev.id = cfg.id ∧
      m.dev.node_id = (if cfg.node_id ≠ 0 then some cfg.node_id else none) := by
  unfold MemoryBuilder.build at h
  cases hb : Memory.new cfg.block_size
      (if cfg.node_id ≠ 0 then some cfg.node_id else none)
      cfg.region_size cfg.id with
  | error e => rw [hb] at h; simp at h
  | ok memory =>
    rw [hb] at h
    cases h
    unfold Memory.new at hb
    split at hb
    · cases hb
      exact ⟨rfl, rfl, rfl⟩
    · cases hb

/-- A failing build wraps the inner constructor error in CreateFailure. -/
theorem build_error_shape {cfg : MemoryDeviceConfig} {e : MemoryConfigError}
    (h : MemoryBuilder.build cfg = Except.error e) :
    ∃ inner, e = MemoryConfigError.CreateFailure inner ∧
      Memory.new cfg.block_size
        (if cfg.node_id ≠ 0 then some cfg.node_id else none)
        cfg.region_size cfg.id = Except.error inner := by
  unfold MemoryBuilder.build at h
  cases hb : Memory.new cfg.block_size
      (if cfg.node_id ≠ 0 then some cfg.node_id else none)
      cfg.region_size cfg.id with
  | error e2 =>
    rw [hb] at h
    cases h
    exact ⟨e2, rfl, rfl⟩
  | ok memory =>
    rw [hb] at h
    cases h

/-- Every normal outcome of add_device is either an append after a clean
scan or an unchanged builder with the scan error. -/
theorem add_device_cases {b : MemoryBuilder} {m : MutexMemory}
    {res : Except MemoryConfigError Unit} {b2 : MemoryBuilder}
    (h : MemoryBuilder.add_device b m = some (res, b2)) :
    (res = Except.ok () ∧ b2 = ⟨b.memory_devices ++ [m]⟩ ∧
      MemoryBuilder.scanIds b.memory_devices m = some (Except.ok ())) ∨
    (∃ e, res = Except.error e ∧ b2 = b ∧
      MemoryBuilder.scanIds b.memory_devices m = some (Except.error e)) := by
  unfold MemoryBuilder.add_device at h
  cases hs : MemoryBuilder.scanIds b.memory_devices m with
  | none => rw [hs] at h; simp at h
  | some r =>
    rw [hs] at h
    cases r with
    | error e =>
      simp only [Option.some.injEq, Prod.mk.injEq] at h
      exact Or.inr ⟨e, h.1.symm, h.2.symm, rfl⟩
    | ok u =>
      cases u
      simp only [Option.some.injEq, Prod.mk.injEq] at h
      exact Or.inl ⟨h.1.symm, h.2.symm, rfl⟩

/-- Adding a handle with a fresh id to a registry with no poisoned lock
appends it at the end. -/
theorem add_device_ok_of_fresh (b : MemoryBuilder) (m : MutexMemory)
    (hall : ∀ d ∈ b.memory_devices, d.poisoned = false)
    (hm : m.poisoned = false) (hfresh : m.dev.id ∉ b.ids) :
    MemoryBuilder.add_device b m =
      some (Except.ok (), ⟨b.memory_devices ++ [m]⟩) := by
  have hscan : MemoryBuilder.scanIds b.memory_devices m =
      some (Except.ok ()) := by
    rw [scanIds_eq_ok_iff]
    intro d hd
    refine ⟨hall d hd, hm, ?_⟩
    intro hid
    exact hfresh (List.mem_map.mpr ⟨d, hd, hid⟩)
  unfold MemoryBuilder.add_device
  rw [hscan]

/-- Adding a handle whose id is already present, with no poisoned lock,
fails with DeviceWithThisIdExists and keeps the builder unchanged. -/
theorem add_device_error_of_dup (b : MemoryBuilder) (m : MutexMemory)
    (hall : ∀ d ∈ b.memory_devices, d.poisoned = false)
    (hm : m.poisoned = false) (hdup : m.dev.id ∈ b.ids) :
    MemoryBuilder.add_device b m =
      some (Except.error MemoryConfigError.DeviceWithThisIdExists, b) := by
  have hscan := scanIds_error_of_mem b.memory_devices m hall hm hdup
  unfold MemoryBuilder.add_device
  rw [hscan]

/-- Inserting a config the factory rejects returns the wrapped error and
keeps the builder unchanged. -/
theorem insert_of_build_error {b : MemoryBuilder} {cfg : MemoryDeviceConfig}
    {e : MemoryConfigError} (h : MemoryBuilder.build cfg = Except.error e) :
    MemoryBuilder.insert b cfg = some (Except.error e, b) := by
  unfold MemoryBuilder.insert
  rw [h]

/-- Inserting a config the factory accepts delegates to add_device on the
built handle. -/
theorem insert_of_build_ok {b : MemoryBuilder} {cfg : MemoryDeviceConfig}
    {m : MutexMemory} (h : MemoryBuilder.build cfg = Except.ok m) :
    MemoryBuilder.insert b cfg = MemoryBuilder.add_device b m := by
  unfold MemoryBuilder.insert
  rw [h]

/-- The default test config of memory.rs (fn default_config), with the page
size taken as 4096. -/
def default_config : MemoryDeviceConfig :=
  { id := "memory-dev", block_size := 4096, node_id := 0,
    region_size := 8 * 4096, requested_size := 0 }

/-- The ill-formed test config of memory.rs (fn broken_config), with the
page size taken as 4096. -/
def broken_config : MemoryDeviceConfig :=
  { id := "broken-config", block_size := 4096 + 1, node_id := 0,
    region_size := 4096 + 2, requested_size := 0 }

/-- A config carrying the already registered id of default_config together
with the factory-rejected sizes of broken_config. -/
def dup_broken_config : MemoryDeviceConfig :=
  { id := "memory-dev", block_size := 4096 + 1, node_id := 0,
    region_size := 4096 + 2, requested_size := 0 }

/-- The registry holding exactly the device built from default_config. -/
def regOne : MemoryBuilder :=
  ⟨[⟨false, ⟨4096, none, 8 * 4096, "memory-dev"⟩⟩]⟩

/-- The three distinct-id configs of the insertion-order scenario. -/
def cfgA : MemoryDeviceConfig :=
  { id := "a", block_size := 4096, node_id := 0,
    region_size := 4096, requested_size := 0 }

/-- The second config of the insertion-order scenario. -/
def cfgB : MemoryDeviceConfig :=
  { id := "b", block_size := 4096, node_id := 0,
    region_size := 4096, requested_size := 0 }

/-- The third config of the insertion-order scenario. -/
def cfgC : MemoryDeviceConfig :=
  { id := "c", block_size := 4096, node_id := 0,
    region_size := 4096, requested_size := 0 }

/-- C6: MemoryBuilder.new yields a registry whose device sequence is empty,
and iter on the empty registry yields the empty traversal. -/
theorem MemoryBuilder.new_iter_empty :
    MemoryBuilder.new.memory_devices = [] ∧ MemoryBuilder.new.iter = [] :=
  ⟨rfl, rfl⟩

/-- C5: the factory translates node_id zero to an absent NUMA affinity and
passes every nonzero node_id through verbatim to the constructed device. -/
theorem MemoryBuilder.build_node_id_translation
    (cfg : MemoryDeviceConfig) (m : MutexMemory)
    (h : MemoryBuilder.build cfg = Except.ok m) :
    (cfg.node_id = 0 → m.dev.node_id = none) ∧
    (cfg.node_id ≠ 0 → m.dev.node_id = some cfg.node_id) := by
  have hfields := (build_ok_fields h).2.2
  constructor
  · intro h0
    rw [hfields]
    simp [h0]
  · intro h0
    rw [hfields]
    simp [h0]

/-- Witness for C5 at a concrete config with node_id one. -/
theorem MemoryBuilder.build_node_id_translation_witness :
    (MutexMemory.mk false ⟨4096, some 1, 4096, "n"⟩).dev.node_id = some 1 :=
  (MemoryBuilder.build_node_id_translation
      ⟨"n", 4096, 1, 4096, 0⟩ ⟨false, ⟨4096, some 1, 4096, "n"⟩⟩
      (by decide)).2 (by decide)

/-- C9: a successful insert appends a device that reports exactly the id of
the inserted config. -/
theorem MemoryBuilder.insert_preserves_config_id
    (b : MemoryBuilder) (cfg : MemoryDeviceConfig) (b2 : MemoryBuilder)
    (h : MemoryBuilder.insert b cfg = some (Except.ok (), b2)) :
    b2.ids = b.ids ++ [cfg.id] := by
  unfold MemoryBuilder.insert at h
  cases hb : MemoryBuilder.build cfg with
  | error e =>
    rw [hb] at h
    simp at h
  | ok m =>
    rw [hb] at h
    rcases add_device_cases h with ⟨_, hdev, _⟩ | ⟨e, hres, _, _⟩
    · subst hdev
      have hid := (build_ok_fields hb).2.1
      simp [MemoryBuilder.ids, hid]
    · cases hres

/-- Witness for C9: inserting default_config into the empty registry. -/
theorem MemoryBuilder.insert_preserves_config_id_witness :
    regOne.ids = MemoryBuilder.new.ids ++ [default_config.id] :=
  MemoryBuilder.insert_preserves_config_id MemoryBuilder.new default_config
    regOne (by decide)

/-- C10: the factory runs before the uniqueness check, so a config that is
both rejected by the factory and carries an already present id yields
CreateFailure, never DeviceWithThisIdExists, with the builder unchanged. -/
theorem MemoryBuilder.insert_factory_error_precedence
    (b : MemoryBuilder) (cfg : MemoryDeviceConfig) (e : MemoryError)
    (hrej : MemoryBuilder.build cfg =
      Except.error (MemoryConfigError.CreateFailure e))
    (_hdup : cfg.id ∈ b.ids) :
    MemoryBuilder.insert b cfg =
      some (Except.error (MemoryConfigError.CreateFailure e), b) ∧
    MemoryConfigError.CreateFailure e ≠
      MemoryConfigError.DeviceWithThisIdExists := by
  refine ⟨insert_of_build_error hrej, ?_⟩
  intro hcon
  cases hcon

/-- Witness for C10: regOne already holds id "memory-dev" and the factory
rejects dup_broken_config, yet insert reports CreateFailure. -/
theorem MemoryBuilder.insert_factory_error_precedence_witness :
    MemoryBuilder.insert regOne dup_broken_config =
      some (Except.error
        (MemoryConfigError.CreateFailure MemoryError.incompatibleBlockSize),
        regOne) ∧
    MemoryConfigError.CreateFailure MemoryError.incompatibleBlockSize ≠
      MemoryConfigError.DeviceWithThisIdExists :=
  MemoryBuilder.insert_factory_error_precedence regOne dup_broken_config
    MemoryError.incompatibleBlockSize (by decide) (by decide)

/-- C4: a successful add_device appends the new device at the end of the
sequence, and inserting the configs with ids a, b, c in that order into the
empty registry makes iter yield the devices with ids exactly in the order
a, b, c. -/
theorem MemoryBuilder.insert_preserves_order :
    (∀ (b : MemoryBuilder) (m : MutexMemory) (b2 : MemoryBuilder),
      MemoryBuilder.add_device b m = some (Except.ok (), b2) →
      b2.memory_devices = b.memory_devices ++ [m]) ∧
    (Op.runAll MemoryBuilder.new
        [Op.insert cfgA, Op.insert cfgB, Op.insert cfgC]).map
      (fun b => b.iter.map (fun d => d.dev.id)) = some ["a", "b", "c"] := by
  constructor
  · intro b m b2 h
    rcases add_device_cases h with ⟨_, hdev, _⟩ | ⟨e, hres, _, _⟩
    · subst hdev
      rfl
    · cases hres
  · decide

/-- Witness for C4 at the empty registry and a concrete handle. -/
theorem MemoryBuilder.insert_preserves_order_witness :
    (MemoryBuilder.mk [⟨false, ⟨4096, none, 4096, "a"⟩⟩]).memory_devices =
      MemoryBuilder.new.memory_devices ++ [⟨false, ⟨4096, none, 4096, "a"⟩⟩] :=
  MemoryBuilder.insert_preserves_order.1 MemoryBuilder.new
    ⟨false, ⟨4096, none, 4096, "a"⟩⟩
    (MemoryBuilder.mk [⟨false, ⟨4096, none, 4096, "a"⟩⟩]) (by decide)

/-- One registry call keeps the contained ids pairwise distinct. -/
theorem ids_nodup_add_device {b : MemoryBuilder} {m : MutexMemory}
    {p : Except MemoryConfigError Unit × MemoryBuilder}
    (hn : b.ids.Nodup) (h : MemoryBuilder.add_device b m = some p) :
    p.2.ids.Nodup := by
  obtain ⟨res, b2⟩ := p
  rcases add_device_cases h with ⟨_, hdev, hscan⟩ | ⟨e, _, hb2, _⟩
  · subst hdev
    have hnot := (scanIds_eq_ok_iff b.memory_devices m).mp hscan
    have hfresh : m.dev.id ∉ b.ids := by
      intro hmem
      obtain ⟨d, hd, hid⟩ := List.mem_map.mp hmem
      exact (hnot d hd).2.2 hid
    have : (MemoryBuilder.mk (b.memory_devices ++ [m])).ids =
        b.ids ++ [m.dev.id] := by
      simp [MemoryBuilder.ids]
    rw [this, List.nodup_append]
    refine ⟨hn, by simp, ?_⟩
    intro x hx hxm
    simp only [List.mem_singleton] at hxm
    subst hxm
    exact hfresh hx
  · subst hb2
    exact hn

/-- Running one call keeps the contained ids pairwise distinct. -/
theorem ids_nodup_run {b b2 : MemoryBuilder} {op : Op}
    (hn : b.ids.Nodup) (h : Op.run b op = some b2) : b2.ids.Nodup := by
  cases op with
  | add m =>
    simp only [Op.run, Option.map_eq_some'] at h
    obtain ⟨p, hp, hsnd⟩ := h
    subst hsnd
    exact ids_nodup_add_device hn hp
  | insert cfg =>
    simp only [Op.run, MemoryBuilder.insert] at h
    cases hb : MemoryBuilder.build cfg with
    | error e =>
      rw [hb] at h
      simp at h
      subst h
      exact hn
    | ok m =>
      rw [hb] at h
      simp only [Option.map_eq_some'] at h
      obtain ⟨p, hp, hsnd⟩ := h
      subst hsnd
      exact ids_nodup_add_device hn hp

/-- Running any sequence of calls keeps the contained ids pairwise
distinct. -/
theorem ids_nodup_runAll {b : MemoryBuilder} (hn : b.ids.Nodup) :
    ∀ (ops : List Op) (b2 : MemoryBuilder),
      Op.runAll b ops = some b2 → b2.ids.Nodup := by
  intro ops
  induction ops generalizing b with
  | nil =>
    intro b2 h
    simp only [Op.runAll, Option.some.injEq] at h
    subst h
    exact hn
  | cons op rest ih =>
    intro b2 h
    rw [Op.runAll] at h
    cases hr : Op.run b op with
    | none => rw [hr] at h; simp at h
    | some b3 =>
      rw [hr] at h
      exact ih (ids_nodup_run hn hr) b2 h

/-- C1: starting from the empty registry, after any sequence of insert and
add_device calls that reach an observable state, the ids of the contained
devices are pairwise distinct; every observable intermediate point is the
result of such a prefix of calls. -/
theorem MemoryBuilder.runAll_ids_nodup (ops : List Op) (b : MemoryBuilder)
    (h : Op.runAll MemoryBuilder.new ops = some b) : b.ids.Nodup :=
  ids_nodup_runAll (by simp [MemoryBuilder.ids, MemoryBuilder.new,
    MemoryBuilder.default]) ops b h

/-- Witness for C1 after one concrete insert call. -/
theorem MemoryBuilder.runAll_ids_nodup_witness : regOne.ids.Nodup :=
  MemoryBuilder.runAll_ids_nodup [Op.insert default_config] regOne (by decide)

/-- C2 counterexample: the registry regOne already contains the id
"memory-dev", yet inserting dup_broken_config, which carries that same id
but is rejected by the factory, returns CreateFailure rather than
DeviceWithThisIdExists, refuting the claim for configs the factory
rejects. -/
theorem MemoryBuilder.insert_duplicate_id_cex :
    "memory-dev" ∈ regOne.ids ∧
    dup_broken_config.id = "memory-dev" ∧
    MemoryBuilder.insert regOne dup_broken_config =
      some (Except.error
        (MemoryConfigError.CreateFailure MemoryError.incompatibleBlockSize),
        regOne) ∧
    decide (MemoryConfigError.CreateFailure MemoryError.incompatibleBlockSize =
      MemoryConfigError.DeviceWithThisIdExists) = false := by
  decide

/-- C2 (amended): for a config the factory accepts, or a pre-built handle,
whose id equals the id of a device already in a registry none of whose
device locks is poisoned, insert (respectively add_device) fails with
DeviceWithThisIdExists and leaves the sequence unchanged; and inserting the
same factory-accepted config twice into the empty registry succeeds the
first time, fails the second time with DeviceWithThisIdExists, and leaves
exactly one device in the registry. -/
theorem MemoryBuilder.insert_duplicate_id_amended :
    (∀ (b : MemoryBuilder) (cfg : MemoryDeviceConfig) (m : MutexMemory),
      MemoryBuilder.build cfg = Except.ok m →
      (∀ d ∈ b.memory_devices, d.poisoned = false) →
      cfg.id ∈ b.ids →
      MemoryBuilder.insert b cfg =
        some (Except.error MemoryConfigError.DeviceWithThisIdExists, b)) ∧
    (∀ (b : MemoryBuilder) (m : MutexMemory),
      (∀ d ∈ b.memory_devices, d.poisoned = false) →
      m.poisoned = false →
      m.dev.id ∈ b.ids →
      MemoryBuilder.add_device b m =
        some (Except.error MemoryConfigError.DeviceWithThisIdExists, b)) ∧
    (∀ (cfg : MemoryDeviceConfig) (m : MutexMemory),
      MemoryBuilder.build cfg = Except.ok m →
      ∃ b1, MemoryBuilder.insert MemoryBuilder.new cfg =
          some (Except.ok (), b1) ∧
        MemoryBuilder.insert b1 cfg =
          some (Except.error MemoryConfigError.DeviceWithThisIdExists, b1) ∧
        b1.memory_devices.length = 1) := by
  have hadd : ∀ (b : MemoryBuilder) (m : MutexMemory),
      (∀ d ∈ b.memory_devices, d.poisoned = false) →
      m.poisoned = false → m.dev.id ∈ b.ids →
      MemoryBuilder.add_device b m =
        some (Except.error MemoryConfigError.DeviceWithThisIdExists, b) :=
    fun b m hall hm hdup => add_device_error_of_dup b m hall hm hdup
  refine ⟨?_, hadd, ?_⟩
  · intro b cfg m hb hall hdup
    obtain ⟨hm, hid, _⟩ := build_ok_fields hb
    rw [insert_of_build_ok hb]
    exact hadd b m hall hm (by rw [hid]; exact hdup)
  · intro cfg m hb
    obtain ⟨hm, hid, _⟩ := build_ok_fields hb
    refine ⟨⟨[m]⟩, ?_, ?_, rfl⟩
    · rw [insert_of_build_ok hb]
      exact add_device_ok_of_fresh MemoryBuilder.new m (by simp
        [MemoryBuilder.new, MemoryBuilder.default]) hm (by simp
        [MemoryBuilder.ids, MemoryBuilder.new, MemoryBuilder.default])
    · rw [insert_of_build_ok hb]
      refine hadd ⟨[m]⟩ m ?_ hm ?_
      · intro d hd
        simp only [List.mem_singleton] at hd
        subst hd
        exact hm
      · simp [MemoryBuilder.ids]

/-- Witness for C2 (amended): on regOne, which already holds the id of
default_config, inserting default_config again fails with
DeviceWithThisIdExists and leaves regOne unchanged. -/
theorem MemoryBuilder.insert_duplicate_id_amended_witness :
    MemoryBuilder.insert regOne default_config =
      some (Except.error MemoryConfigError.DeviceWithThisIdExists, regOne) :=
  MemoryBuilder.insert_duplicate_id_amended.1 regOne default_config
    ⟨false, ⟨4096, none, 8 * 4096, "memory-dev"⟩⟩ (by decide) (by decide)
    (by decide)

/-- C3: inserting a config the factory rejects returns CreateFailure
wrapping the inner factory error and leaves the registry unchanged, and a
subsequent insert of a valid config (one the factory accepts, with a fresh
id, the registry locks being unpoisoned) on that same registry succeeds. -/
theorem MemoryBuilder.insert_create_failure_unchanged
    (b : MemoryBuilder) (cfg : MemoryDeviceConfig) (e : MemoryError)
    (hrej : Memory.new cfg.block_size
        (if cfg.node_id ≠ 0 then some cfg.node_id else none)
        cfg.region_size cfg.id = Except.error e) :
    MemoryBuilder.insert b cfg =
      some (Except.error (MemoryConfigError.CreateFailure e), b) ∧
    (∀ (cfg2 : MemoryDeviceConfig) (m2 : MutexMemory),
      MemoryBuilder.build cfg2 = Except.ok m2 →
      cfg2.id ∉ b.ids →
      (∀ d ∈ b.memory_devices, d.poisoned = false) →
      MemoryBuilder.insert b cfg2 =
        some (Except.ok (), ⟨b.memory_devices ++ [m2]⟩)) := by
  constructor
  · refine insert_of_build_error ?_
    unfold MemoryBuilder.build
    rw [hrej]
  · intro cfg2 m2 hb2 hfresh hall
    obtain ⟨hm2, hid2, _⟩ := build_ok_fields hb2
    rw [insert_of_build_ok hb2]
    exact add_device_ok_of_fresh b m2 hall hm2 (by rw [hid2]; exact hfresh)

/-- Witness for C3: the broken config is rejected on the empty registry,
which then still accepts default_config. -/
theorem MemoryBuilder.insert_create_failure_unchanged_witness :
    MemoryBuilder.insert MemoryBuilder.new broken_config =
      some (Except.error
        (MemoryConfigError.CreateFailure MemoryError.incompatibleBlockSize),
        MemoryBuilder.new) :=
  (MemoryBuilder.insert_create_failure_unchanged MemoryBuilder.new
    broken_config MemoryError.incompatibleBlockSize (by decide)).1

/-- C7: the error taxonomy raised by the registry is closed: every normal
error outcome of insert is CreateFailure or DeviceWithThisIdExists, every
normal error outcome of add_device is DeviceWithThisIdExists, and neither
DeviceNotFound nor DeviceNotActive is ever raised. -/
theorem MemoryBuilder.insert_error_taxonomy_closed :
    (∀ (b : MemoryBuilder) (cfg : MemoryDeviceConfig)
        (e : MemoryConfigError) (b2 : MemoryBuilder),
      MemoryBuilder.insert b cfg = some (Except.error e, b2) →
      (e = MemoryConfigError.DeviceWithThisIdExists ∨
        ∃ inner, e = MemoryConfigError.CreateFailure inner) ∧
      e ≠ MemoryConfigError.DeviceNotFound ∧
      e ≠ MemoryConfigError.DeviceNotActive) ∧
    (∀ (b : MemoryBuilder) (m : MutexMemory)
        (e : MemoryConfigError) (b2 : MemoryBuilder),
      MemoryBuilder.add_device b m = some (Except.error e, b2) →
      e = MemoryConfigError.DeviceWithThisIdExists) := by
  have hadd : ∀ (b : MemoryBuilder) (m : MutexMemory)
      (e : MemoryConfigError) (b2 : MemoryBuilder),
      MemoryBuilder.add_device b m = some (Except.error e, b2) →
      e = MemoryConfigError.DeviceWithThisIdExists := by
    intro b m e b2 h
    rcases add_device_cases h with ⟨hres, _, _⟩ | ⟨e2, hres, _, hscan⟩
    · cases hres
    · cases hres
      exact scanIds_error_kind b.memory_devices m e hscan
  refine ⟨?_, hadd⟩
  intro b cfg e b2 h
  have hshape : e = MemoryConfigError.DeviceWithThisIdExists ∨
      ∃ inner, e = MemoryConfigError.CreateFailure inner := by
    cases hb : MemoryBuilder.build cfg with
    | error e0 =>
      rw [insert_of_build_error hb] at h
      simp only [Option.some.injEq, Prod.mk.injEq, Except.error.injEq] at h
      obtain ⟨inner, hi, _⟩ := build_error_shape hb
      exact Or.inr ⟨inner, by rw [← h.1, hi]⟩
    | ok m =>
      rw [insert_of_build_ok hb] at h
      exact Or.inl (hadd b m e b2 h)
  refine ⟨hshape, ?_, ?_⟩
  · rcases hshape with h1 | ⟨inner, h1⟩ <;> subst h1 <;> intro hcon <;> cases hcon
  · rcases hshape with h1 | ⟨inner, h1⟩ <;> subst h1 <;> intro hcon <;> cases hcon

/-- Witness for C7: the duplicate insert on regOne raises
DeviceWithThisIdExists, a kind the taxonomy allows. -/
theorem MemoryBuilder.insert_error_taxonomy_closed_witness :
    MemoryConfigError.DeviceWithThisIdExists =
      MemoryConfigError.DeviceWithThisIdExists :=
  MemoryBuilder.insert_error_taxonomy_closed.2 regOne
    ⟨false, ⟨4096, none, 8 * 4096, "memory-dev"⟩⟩
    MemoryConfigError.DeviceWithThisIdExists regOne (by decide)

/-- A handle whose lock is poisoned, for exercising the fatal path. -/
def poisonedHandle : MutexMemory := ⟨true, ⟨4096, none, 4096, "p"⟩⟩

/-- A fresh handle with an id distinct from poisonedHandle. -/
def freshHandle : MutexMemory := ⟨false, ⟨4096, none, 4096, "q"⟩⟩

/-- C8: when no involved device lock is poisoned, the fatal branch of
add_device is unreachable and add_device always reaches a normal outcome;
and a poisoned lock met during the id-comparison scan aborts the call
(outcome none) instead of returning any MemoryConfigError. -/
theorem MemoryBuilder.add_device_poison_fatal :
    (∀ (b : MemoryBuilder) (m : MutexMemory),
      (∀ d ∈ b.memory_devices, d.poisoned = false) →
      m.poisoned = false →
      (MemoryBuilder.add_device b m).isSome) ∧
    MemoryBuilder.add_device (MemoryBuilder.mk [poisonedHandle]) freshHandle
      = none := by
  constructor
  · intro b m hall hm
    have hs := scanIds_isSome b.memory_devices m hall hm
    unfold MemoryBuilder.add_device
    cases hscan : MemoryBuilder.scanIds b.memory_devices m with
    | none => rw [hscan] at hs; cases hs
    | some r =>
      cases r with
      | error e => simp
      | ok u => simp
  · decide

/-- Witness for C8: on the empty registry with an unpoisoned handle,
add_device reaches a normal outcome. -/
theorem MemoryBuilder.add_device_poison_fatal_witness :
    (MemoryBuilder.add_device MemoryBuilder.new freshHandle).isSome :=
  MemoryBuilder.add_device_poison_fatal.1 MemoryBuilder.new freshHandle
    (by simp [MemoryBuilder.new, MemoryBuilder.default]) (by decide)
